import Mathlib

/-
Verification development for the Alumicraft emails repository, against the
Document Email Dispatch Orchestrator specification. The embedded code is
the client-side dispatch logic: send_email_button.js, an unnamed earlier
variant of the same script, and the print-format link query of
email_service_settings.js. Server endpoints that are not part of the
sources (the module behind emails.api) are modelled from the specification
and marked as such in their doc comments.
-/

namespace Emails

/-- Status of a send record. Modelled from the spec: the server module that
appends Communication rows (emails.api) is not among the sources; the spec
gives every SendRecord a status field with values Success and Failed, and
fixes medium = Email and direction = Sent for all records. -/
inductive SendStatus
  | Success
  | Failed
deriving DecidableEq

def mediumEmail : String := "Email"

def directionSent : String := "Sent"

def labelSend : String := "Send Email"

def labelResend : String := "Resend Email"

/-- One Communication row as seen by the client queries in
send_email_button.js. The first four fields are exactly the filter keys the
client sends to frappe.client.get_count; the status field is modelled from
the spec (see SendStatus). -/
structure Communication where
  reference_doctype : String
  reference_name : String
  communication_medium : String
  sent_or_received : String
  status : SendStatus
deriving DecidableEq

/-- Filters of the two get_count calls in send_email_button.js (lines 21 to
26 and 65 to 70): reference doctype and name match the form, medium is
Email, direction is Sent. There is no condition on the status of the row. -/
def matchesSentEmailFilter (doctype docname : String) (c : Communication) : Bool :=
  c.reference_doctype == doctype && c.reference_name == docname &&
    c.communication_medium == mediumEmail && c.sent_or_received == directionSent

/-- emails.check_email_sent: resolves whether the count of Communication
rows matching the filter is positive. -/
def check_email_sent (doctype docname : String) (records : List Communication) : Bool :=
  decide (records.countP (matchesSentEmailFilter doctype docname) > 0)

/-- Follows the spec words for countSendRecords(documentType, documentId,
status = Success): rows for the pair with medium Email, direction Sent and
status Success. Stated only to compare the spec sentence about alreadySent
with check_email_sent as the code implements it. -/
def countSendRecords_success (doctype docname : String) (records : List Communication) : Nat :=
  records.countP (fun c =>
    matchesSentEmailFilter doctype docname c && c.status == SendStatus.Success)

def dtQuotation : String := "Quotation"

def dtSalesOrder : String := "Sales Order"

def dtPaymentEntry : String := "Payment Entry"

def dtPurchaseOrder : String := "Purchase Order"

def dtPaymentRequest : String := "Payment Request"

def dtSalesInvoice : String := "Sales Invoice"

def dtDeliveryNote : String := "Delivery Note"

/-- emails.SUPPORTED_DOCTYPES in src/emails/public/js/send_email_button.js,
the primary version of the button script (the one with Send versus Resend
labeling and the after-submit prompt). Five document types. -/
def SUPPORTED_DOCTYPES : List String :=
  [dtQuotation, dtSalesOrder, dtPaymentEntry, dtPurchaseOrder, dtPaymentRequest]

/-- emails.SUPPORTED_DOCTYPES in the unnamed variant of the button script.
Seven document types. -/
def SUPPORTED_DOCTYPES_variant : List String :=
  [dtSalesInvoice, dtQuotation, dtSalesOrder, dtDeliveryNote, dtPaymentEntry,
    dtPurchaseOrder, dtPaymentRequest]

/-- Follows the spec words: the fixed set of seven business document types
named in the purpose section of the spec. -/
def specSevenDoctypes : List String :=
  [dtQuotation, dtSalesOrder, dtPaymentEntry, dtPurchaseOrder, dtPaymentRequest,
    dtSalesInvoice, dtDeliveryNote]

/-- The slice of a frappe form the button script reads: frm.doctype,
frm.doc.name and frm.doc.docstatus. -/
structure Form where
  doctype : String
  docname : String
  docstatus : Int
deriving DecidableEq

/-- Response payload of emails.api.check_doctype_email_enabled as the
client reads it: r.message.enabled. -/
structure EnabledCheck where
  enabled : Bool
deriving DecidableEq

/-- What a custom button does when clicked. Every branch of the button
setup attaches the same handler, emails.show_send_email_dialog. -/
inductive ButtonAction
  | showSendEmailDialog
deriving DecidableEq

structure CustomButton where
  label : String
  action : ButtonAction
deriving DecidableEq

/-- frm.remove_custom_button(label): drops the buttons carrying the label. -/
def remove_custom_button (label : String) (btns : List CustomButton) : List CustomButton :=
  btns.filter (fun b => b.label != label)

/-- frm.add_custom_button(label, handler): appends one button. -/
def add_custom_button (b : CustomButton) (btns : List CustomButton) : List CustomButton :=
  btns ++ [b]

/-- Truthiness of the guard r.message && r.message.enabled: none models a
call whose response carries no message. -/
def enabled_truthy (o : Option EnabledCheck) : Bool :=
  match o with
  | some r => r.enabled
  | none => false

/-- emails.setup_send_email_button in the primary script: returns early
unless the document is submitted (docstatus 1) and its doctype is
supported; then removes any existing Send Email and Resend Email buttons;
then, when the doctype is enabled, counts prior sent email Communications
and adds one button labeled Resend Email when the count is positive and
Send Email otherwise, with the dialog handler in both cases. -/
def setup_send_email_button (enabledResult : String → Option EnabledCheck) (frm : Form)
    (records : List Communication) (btns : List CustomButton) : List CustomButton :=
  if frm.docstatus != 1 then btns
  else if !(SUPPORTED_DOCTYPES.contains frm.doctype) then btns
  else
    let cleaned := remove_custom_button labelResend (remove_custom_button labelSend btns)
    if enabled_truthy (enabledResult frm.doctype) then
      let email_sent := check_email_sent frm.doctype frm.docname records
      add_custom_button
        { label := if email_sent then labelResend else labelSend,
          action := ButtonAction.showSendEmailDialog } cleaned
    else cleaned

/-- emails.setup_send_email_button in the unnamed variant: no removal and
no resend detection; adds a Send Email button when the document is
submitted, the doctype is in its seven-element list, and enabled. -/
def setup_send_email_button_variant (enabledResult : String → Option EnabledCheck) (frm : Form)
    (btns : List CustomButton) : List CustomButton :=
  if frm.docstatus != 1 then btns
  else if !(SUPPORTED_DOCTYPES_variant.contains frm.doctype) then btns
  else if enabled_truthy (enabledResult frm.doctype) then
    add_custom_button
      { label := labelSend, action := ButtonAction.showSendEmailDialog } btns
  else btns

/-- emails.prompt_send_email_after_submit: whether the confirm prompt is
shown. It returns early for unsupported doctypes and shows the prompt only
when the enabled check is truthy. -/
def prompt_send_email_after_submit (enabledResult : String → Option EnabledCheck)
    (frm : Form) : Bool :=
  if !(SUPPORTED_DOCTYPES.contains frm.doctype) then false
  else enabled_truthy (enabledResult frm.doctype)

/-- Client-visible state of one form: its custom buttons and the
Communication rows on the server. The button script only reads the rows
(through get_count); it contains no call that writes them. -/
structure ClientState where
  buttons : List CustomButton
  records : List Communication
deriving DecidableEq

/-- One invocation of the button setup as a state step: buttons are
recomputed, the rows pass through untouched. -/
def setup_step (enabledResult : String → Option EnabledCheck) (frm : Form)
    (s : ClientState) : ClientState :=
  { buttons := setup_send_email_button enabledResult frm s.records s.buttons,
    records := s.records }

/-- Response payload of emails.api.get_document_recipient as the client
reads it: r.message.email. -/
structure RecipientResult where
  email : String
deriving DecidableEq

/-- The dialog built by emails.show_send_email_dialog. The callback always
constructs and shows the dialog; the recipient field default is
r.message ? r.message.email : the empty string. -/
structure DialogSpec where
  shown : Bool
  to_email_default : String
deriving DecidableEq

def show_send_email_dialog (r : Option RecipientResult) : DialogSpec :=
  { shown := true,
    to_email_default :=
      match r with
      | some m => m.email
      | none => "" }

/-- Per-doctype recipient configuration, as the spec describes it. An empty
recipientDoctype models the unset case. -/
structure RecipientConfig where
  recipientField : String
  recipientDoctype : String
deriving DecidableEq

/-- Modelled from the spec: the resolver behind
emails.api.get_document_recipient is not among the sources. Spec section
4.3: when recipientDocumentType is set, follow the recipientField value of
the document to the related record and return its canonical address, or the
empty string when the record or the address is missing; otherwise return
the recipientField value on the document itself, defaulting to the empty
string. It never fails the caller. -/
def resolveDefault (cfg : RecipientConfig) (docField : String → Option String)
    (lookupAddr : String → String → Option String) : String :=
  if cfg.recipientDoctype != "" then
    match docField cfg.recipientField with
    | none => ""
    | some refId =>
      match lookupAddr cfg.recipientDoctype refId with
      | none => ""
      | some addr => addr
  else
    match docField cfg.recipientField with
    | none => ""
    | some v => v

/-- Modelled from the spec: the server endpoint wraps the resolved address
(possibly empty) in a message payload. -/
def get_document_recipient (cfg : RecipientConfig) (docField : String → Option String)
    (lookupAddr : String → String → Option String) : Option RecipientResult :=
  some { email := resolveDefault cfg docField lookupAddr }

/-- Response payload of emails.api.send_document_email as the client reads
it: r.message.success and r.message.message. -/
structure SendResult where
  success : Bool
  message : String
deriving DecidableEq

/-- User-facing outcome produced by the callback of
emails.send_document_email. -/
inductive Notification
  | alert (message : String) (indicator : String)
  | msgprint (title : String) (message : String) (indicator : String)
deriving DecidableEq

def msgUnknownError : String := "Unknown error"

def msgSentOk : String := "Email sent successfully"

def titleEmailFailed : String := "Email Failed"

def indGreen : String := "green"

def indRed : String := "red"

/-- Callback of emails.send_document_email (lines 173 to 189): a message
with success true gives the green alert; otherwise a red msgprint whose
text is r.message ? r.message.message : the generic Unknown error. -/
def send_document_email_callback (r : Option SendResult) : Notification :=
  match r with
  | some m =>
    if m.success then Notification.alert msgSentOk indGreen
    else Notification.msgprint titleEmailFailed m.message indRed
  | none => Notification.msgprint titleEmailFailed msgUnknownError indRed

/-- One Print Format row as the link query filters see it: its doc_type and
its disabled flag (an integer in the source filters). -/
structure PrintFormatRow where
  doc_type : String
  disabled : Int
deriving DecidableEq

/-- One row of the supported_doctypes child table of Email Service
Settings; an empty doctype_name models the unset case. -/
structure ConfigRow where
  doctype_name : String
deriving DecidableEq

/-- The set_query handler for print_format in email_service_settings.js:
when the row has a doctype_name it returns the filters doc_type =
doctype_name and disabled = 0, otherwise no filters. This predicate states
whether a given Print Format row passes the returned filters. -/
def print_format_query (row : ConfigRow) (pf : PrintFormatRow) : Bool :=
  if row.doctype_name != "" then
    pf.doc_type == row.doctype_name && pf.disabled == 0
  else true

/-- Whether a custom button is one of the two send buttons. -/
def isSendButton (b : CustomButton) : Bool :=
  b.label == labelSend || b.label == labelResend

def sendButtonCount (btns : List CustomButton) : Nat :=
  btns.countP isSendButton

/- Concrete instances used by counterexamples and witnesses. -/

def docQTN : String := "QTN-001"

def docSINV : String := "SINV-001"

def docTask : String := "TASK-001"

/-- A send record for the pair (Quotation, QTN-001) whose dispatch failed:
medium and direction are fixed by the spec, status is Failed. -/
def failedOnlyRecord : Communication :=
  { reference_doctype := dtQuotation, reference_name := docQTN,
    communication_medium := mediumEmail, sent_or_received := directionSent,
    status := SendStatus.Failed }

/-- A send record for the pair (Quotation, QTN-001) whose dispatch
succeeded. -/
def successRecord : Communication :=
  { reference_doctype := dtQuotation, reference_name := docQTN,
    communication_medium := mediumEmail, sent_or_received := directionSent,
    status := SendStatus.Success }

/-- An enabled-check environment in which every doctype is enabled. -/
def envAllEnabled : String → Option EnabledCheck :=
  fun _ => some { enabled := true }

def formQuotationSubmitted : Form :=
  { doctype := dtQuotation, docname := docQTN, docstatus := 1 }

def formQuotationDraft : Form :=
  { doctype := dtQuotation, docname := docQTN, docstatus := 0 }

def formSalesInvoice : Form :=
  { doctype := dtSalesInvoice, docname := docSINV, docstatus := 1 }

def formTask : Form :=
  { doctype := "Task", docname := docTask, docstatus := 1 }

def docDN : String := "DN-001"

def formDeliveryNote : Form :=
  { doctype := dtDeliveryNote, docname := docDN, docstatus := 1 }

def quotaExceeded : String := "quota exceeded"

/- Claim theorems. -/

/-- C1, counterexample: a state holding only a Failed send record for the
pair still makes check_email_sent report true, although the count of
Success records for the pair is zero; the claim says such a state must
yield alreadySent = false. -/
theorem C1_counterexample :
    check_email_sent dtQuotation docQTN [failedOnlyRecord] = true ∧
      countSendRecords_success dtQuotation docQTN [failedOnlyRecord] = 0 := by
  decide

/-- C1, amended: the already-sent signal used for Send versus Resend
labeling is true iff at least one send record for the pair with medium
Email and direction Sent exists, regardless of its status; in particular a
state with only Failed records yields alreadySent = true. -/
theorem C1_amended_alreadySent (doctype docname : String) (records : List Communication) :
    check_email_sent doctype docname records = true ↔
      ∃ c ∈ records, matchesSentEmailFilter doctype docname c = true := by
  simp [check_email_sent]

/-- C2, counterexample: Sales Invoice is one of the seven document types of
the claim, yet the primary button script supports only five; for a
submitted Sales Invoice with every doctype enabled, the setup adds no
button and the after-submit prompt is not shown. -/
theorem C2_counterexample :
    dtSalesInvoice ∈ specSevenDoctypes ∧
      SUPPORTED_DOCTYPES.contains dtSalesInvoice = false ∧
      setup_send_email_button envAllEnabled formSalesInvoice [] [] = [] ∧
      prompt_send_email_after_submit envAllEnabled formSalesInvoice = false := by
  decide

/-- C2, amended: the primary script offers the send action for exactly the
five doctypes of SUPPORTED_DOCTYPES and the unnamed variant for the seven
of SUPPORTED_DOCTYPES_variant; for a document type outside the respective
list of a script, that script adds no button, and the primary script shows
no prompt either. In particular Sales Invoice and Delivery Note, outside
the five-element list, never get a button or a prompt from the primary
script, in any configuration, history, or button state. -/
theorem C2_amended_supported_set (enabledResult : String → Option EnabledCheck) (frm : Form)
    (records : List Communication) (btns : List CustomButton) :
    (SUPPORTED_DOCTYPES.contains frm.doctype = false →
      setup_send_email_button enabledResult frm records btns = btns ∧
        prompt_send_email_after_submit enabledResult frm = false) ∧
      (SUPPORTED_DOCTYPES_variant.contains frm.doctype = false →
        setup_send_email_button_variant enabledResult frm btns = btns) := by
  constructor
  · intro h
    have h1 : frm.doctype ∉ SUPPORTED_DOCTYPES := by simpa using h
    unfold setup_send_email_button prompt_send_email_after_submit
    simp [h1]
  · intro hv
    have hv1 : frm.doctype ∉ SUPPORTED_DOCTYPES_variant := by simpa using hv
    unfold setup_send_email_button_variant
    simp [hv1]

/-- C2, witness for the amended theorem: the primary part at a submitted
Delivery Note (one of the two doctypes the claim names that its list
lacks), the variant part at the unsupported doctype Task. -/
theorem C2_amended_supported_set_witness :
    (setup_send_email_button envAllEnabled formDeliveryNote [] [] = [] ∧
      prompt_send_email_after_submit envAllEnabled formDeliveryNote = false) ∧
      setup_send_email_button_variant envAllEnabled formTask [] = [] :=
  ⟨(C2_amended_supported_set envAllEnabled formDeliveryNote [] []).1 (by decide),
    (C2_amended_supported_set envAllEnabled formTask [] []).2 (by decide)⟩

/-- C3: a document that is not submitted gets no button: when docstatus is
not 1, the setup returns the button list unchanged whatever the
configuration says, in both versions of the script. -/
theorem C3_not_submitted_no_button (enabledResult : String → Option EnabledCheck) (frm : Form)
    (records : List Communication) (btns : List CustomButton)
    (h : frm.docstatus ≠ 1) :
    setup_send_email_button enabledResult frm records btns = btns ∧
      setup_send_email_button_variant enabledResult frm btns = btns := by
  have hb : (frm.docstatus != 1) = true := by simpa using h
  unfold setup_send_email_button setup_send_email_button_variant
  simp [hb]

/-- C3, witness on a draft Quotation with every doctype enabled. -/
theorem C3_not_submitted_no_button_witness :
    setup_send_email_button envAllEnabled formQuotationDraft [] [] = [] ∧
      setup_send_email_button_variant envAllEnabled formQuotationDraft [] = [] :=
  C3_not_submitted_no_button envAllEnabled formQuotationDraft [] [] (by decide)

/-- C4: for a failure result carrying a payload, the notification is the
red Email Failed msgprint whose text is exactly the message of the payload,
taken verbatim. -/
theorem C4_failure_message_verbatim (m : SendResult) (h : m.success = false) :
    send_document_email_callback (some m) =
      Notification.msgprint titleEmailFailed m.message indRed := by
  unfold send_document_email_callback
  simp [h]

/-- C4, witness on the quota-exceeded failure payload of the spec. -/
theorem C4_failure_message_verbatim_witness :
    send_document_email_callback (some { success := false, message := quotaExceeded }) =
      Notification.msgprint titleEmailFailed quotaExceeded indRed :=
  C4_failure_message_verbatim { success := false, message := quotaExceeded } (by decide)

/-- Helper: after the two removals of the setup, no send button is left. -/
lemma sendButtonCount_cleaned (btns : List CustomButton) :
    sendButtonCount (remove_custom_button labelResend (remove_custom_button labelSend btns)) = 0 := by
  unfold sendButtonCount remove_custom_button
  rw [List.countP_eq_zero]
  intro b hb
  simp only [List.mem_filter] at hb
  obtain ⟨⟨_, h1⟩, h2⟩ := hb
  simp only [bne_iff_ne, ne_eq] at h1 h2
  simp [isSendButton, h1, h2]

/-- C5: ineligibility is silent: when the doctype is unsupported or the
enabled check is not truthy, the after-submit prompt is not shown, the
setup step adds no send button, and the Communication rows are unchanged
by the invocation. -/
theorem C5_ineligible_silent (enabledResult : String → Option EnabledCheck) (frm : Form)
    (s : ClientState)
    (h : SUPPORTED_DOCTYPES.contains frm.doctype = false ∨
      enabled_truthy (enabledResult frm.doctype) = false) :
    prompt_send_email_after_submit enabledResult frm = false ∧
      sendButtonCount (setup_step enabledResult frm s).buttons ≤ sendButtonCount s.buttons ∧
      (setup_step enabledResult frm s).records = s.records := by
  refine ⟨?_, ?_, rfl⟩
  · unfold prompt_send_email_after_submit
    rcases h with h | h
    · have h1 : frm.doctype ∉ SUPPORTED_DOCTYPES := by simpa using h
      simp [h1]
    · by_cases hc : SUPPORTED_DOCTYPES.contains frm.doctype <;> simp [hc, h]
  · unfold setup_step setup_send_email_button
    by_cases h1 : frm.docstatus != 1
    · simp [h1]
    · by_cases hc : SUPPORTED_DOCTYPES.contains frm.doctype
      · rcases h with h | h
        · rw [h] at hc
          exact absurd hc (by simp)
        · have hc1 : frm.doctype ∈ SUPPORTED_DOCTYPES := by simpa using hc
          simp [h1, hc1, h, sendButtonCount_cleaned]
      · have hc1 : frm.doctype ∉ SUPPORTED_DOCTYPES := by simpa using hc
        simp [h1, hc1]

/-- C5, witness: a submitted Quotation whose configuration is not enabled,
starting from a state that already shows one send button. -/
theorem C5_ineligible_silent_witness :
    prompt_send_email_after_submit (fun _ => some { enabled := false }) formQuotationSubmitted = false ∧
      sendButtonCount (setup_step (fun _ => some { enabled := false }) formQuotationSubmitted
        { buttons := [{ label := labelSend, action := ButtonAction.showSendEmailDialog }],
          records := [] }).buttons ≤
        sendButtonCount [{ label := labelSend, action := ButtonAction.showSendEmailDialog }] ∧
      (setup_step (fun _ => some { enabled := false }) formQuotationSubmitted
        { buttons := [{ label := labelSend, action := ButtonAction.showSendEmailDialog }],
          records := [] }).records = [] :=
  C5_ineligible_silent (fun _ => some { enabled := false }) formQuotationSubmitted
    { buttons := [{ label := labelSend, action := ButtonAction.showSendEmailDialog }],
      records := [] } (Or.inr rfl)

/-- C6: a prior success never blocks a resend: for a submitted, supported,
enabled document whose sent count is positive, the setup still adds exactly
one button, labeled Resend Email, with the same dialog handler the Send
Email button carries when the history is empty; the history changes only
the label. -/
theorem C6_resend_available (enabledResult : String → Option EnabledCheck) (frm : Form)
    (recs recsFresh : List Communication) (btns : List CustomButton)
    (hs : frm.docstatus = 1)
    (hd : SUPPORTED_DOCTYPES.contains frm.doctype = true)
    (he : enabled_truthy (enabledResult frm.doctype) = true)
    (hsent : check_email_sent frm.doctype frm.docname recs = true)
    (hfresh : check_email_sent frm.doctype frm.docname recsFresh = false) :
    setup_send_email_button enabledResult frm recs btns =
        add_custom_button { label := labelResend, action := ButtonAction.showSendEmailDialog }
          (remove_custom_button labelResend (remove_custom_button labelSend btns)) ∧
      setup_send_email_button enabledResult frm recsFresh btns =
        add_custom_button { label := labelSend, action := ButtonAction.showSendEmailDialog }
          (remove_custom_button labelResend (remove_custom_button labelSend btns)) := by
  have h1 : (frm.docstatus != 1) = false := by simp [hs]
  have hd1 : frm.doctype ∈ SUPPORTED_DOCTYPES := by simpa using hd
  unfold setup_send_email_button
  simp [h1, hd1, he, hsent, hfresh]

/-- C6, witness: a submitted Quotation with one successful send record
versus an empty history. -/
theorem C6_resend_available_witness :
    setup_send_email_button envAllEnabled formQuotationSubmitted [successRecord] [] =
        [{ label := labelResend, action := ButtonAction.showSendEmailDialog }] ∧
      setup_send_email_button envAllEnabled formQuotationSubmitted [] [] =
        [{ label := labelSend, action := ButtonAction.showSendEmailDialog }] :=
  C6_resend_available envAllEnabled formQuotationSubmitted [successRecord] [] []
    (by decide) (by decide) (by decide) (by decide) (by decide)

/-- C7: resolving the suggested recipient never fails the caller: when the
document field is absent, or the related-record lookup finds nothing, the
resolved default is the empty string and the dialog still opens with an
empty pre-fill; likewise when the client receives no payload at all. -/
theorem C7_missing_recipient_empty_default (cfg : RecipientConfig)
    (docField : String → Option String) (lookupAddr : String → String → Option String)
    (h : docField cfg.recipientField = none ∨
      (cfg.recipientDoctype ≠ "" ∧ ∀ refId, lookupAddr cfg.recipientDoctype refId = none)) :
    (show_send_email_dialog (get_document_recipient cfg docField lookupAddr)).shown = true ∧
      (show_send_email_dialog (get_document_recipient cfg docField lookupAddr)).to_email_default = "" ∧
      (show_send_email_dialog none).shown = true ∧
      (show_send_email_dialog none).to_email_default = "" := by
  refine ⟨rfl, ?_, rfl, rfl⟩
  unfold show_send_email_dialog get_document_recipient resolveDefault
  rcases h with h | ⟨hd, hl⟩
  · by_cases hb : cfg.recipientDoctype != "" <;> simp [hb, h]
  · have hb : (cfg.recipientDoctype != "") = true := by simpa using hd
    simp only [hb, if_true]
    cases hf : docField cfg.recipientField with
    | none => simp
    | some refId => simp [hl refId]

/-- C7, witness: a configuration pointing at a related Contact record, a
document with no value in the recipient field. -/
theorem C7_missing_recipient_empty_default_witness :
    (show_send_email_dialog (get_document_recipient
        { recipientField := "contact_email", recipientDoctype := "Contact" }
        (fun _ => none) (fun _ _ => none))).shown = true ∧
      (show_send_email_dialog (get_document_recipient
        { recipientField := "contact_email", recipientDoctype := "Contact" }
        (fun _ => none) (fun _ _ => none))).to_email_default = "" ∧
      (show_send_email_dialog none).shown = true ∧
      (show_send_email_dialog none).to_email_default = "" :=
  C7_missing_recipient_empty_default
    { recipientField := "contact_email", recipientDoctype := "Contact" }
    (fun _ => none) (fun _ _ => none) (Or.inl rfl)

/-- C8: for a configuration row whose doctype_name is set, a Print Format
row passes the print_format link query exactly when its doc_type equals the
doctype_name of the row and it is not disabled. -/
theorem C8_print_format_belongs (row : ConfigRow) (pf : PrintFormatRow)
    (h : row.doctype_name ≠ "") :
    print_format_query row pf = true ↔
      (pf.doc_type = row.doctype_name ∧ pf.disabled = 0) := by
  have hb : (row.doctype_name != "") = true := by simpa using h
  unfold print_format_query
  simp [hb]

/-- C8, witness: a Quotation row with an enabled Quotation print format. -/
theorem C8_print_format_belongs_witness :
    print_format_query { doctype_name := dtQuotation } { doc_type := dtQuotation, disabled := 0 } = true ↔
      (dtQuotation = dtQuotation ∧ (0 : Int) = 0) :=
  C8_print_format_belongs { doctype_name := dtQuotation }
    { doc_type := dtQuotation, disabled := 0 } (by decide)


/-- Helper: the label the setup picks is a send-button label either way. -/
lemma isSendButton_setup_label (b : Bool) :
    isSendButton { label := (if b then labelResend else labelSend),
                   action := ButtonAction.showSendEmailDialog } = true := by
  cases b <;> decide

/-- Helper: the setup leaves the buttons alone when the document is not
submitted. -/
lemma setup_not_submitted_eq (enabledResult : String → Option EnabledCheck) (frm : Form)
    (records : List Communication) (btns : List CustomButton)
    (h1 : (frm.docstatus != 1) = true) :
    setup_send_email_button enabledResult frm records btns = btns := by
  unfold setup_send_email_button
  simp [h1]

/-- Helper: the setup leaves the buttons alone for unsupported doctypes. -/
lemma setup_unsupported_eq (enabledResult : String → Option EnabledCheck) (frm : Form)
    (records : List Communication) (btns : List CustomButton)
    (hc : frm.doctype ∉ SUPPORTED_DOCTYPES) :
    setup_send_email_button enabledResult frm records btns = btns := by
  unfold setup_send_email_button
  simp [hc]

/-- Helper: for a submitted, supported, enabled document the setup removes
the two send labels and appends the labeled button. -/
lemma setup_enabled_eq (enabledResult : String → Option EnabledCheck) (frm : Form)
    (records : List Communication) (btns : List CustomButton)
    (h1 : (frm.docstatus != 1) = false)
    (hc : frm.doctype ∈ SUPPORTED_DOCTYPES)
    (he : enabled_truthy (enabledResult frm.doctype) = true) :
    setup_send_email_button enabledResult frm records btns =
      add_custom_button
        { label := (if check_email_sent frm.doctype frm.docname records then labelResend
            else labelSend),
          action := ButtonAction.showSendEmailDialog }
        (remove_custom_button labelResend (remove_custom_button labelSend btns)) := by
  unfold setup_send_email_button
  simp [h1, hc, he]

/-- Helper: for a submitted, supported but not enabled document the setup
removes the two send labels and adds nothing. -/
lemma setup_disabled_eq (enabledResult : String → Option EnabledCheck) (frm : Form)
    (records : List Communication) (btns : List CustomButton)
    (h1 : (frm.docstatus != 1) = false)
    (hc : frm.doctype ∈ SUPPORTED_DOCTYPES)
    (he : enabled_truthy (enabledResult frm.doctype) = false) :
    setup_send_email_button enabledResult frm records btns =
      remove_custom_button labelResend (remove_custom_button labelSend btns) := by
  unfold setup_send_email_button
  simp [h1, hc, he]

/-- Helper: appending a send button and then removing both send labels is
the same as removing both send labels. -/
lemma clean_append_send (btns : List CustomButton) (b : CustomButton)
    (hb : isSendButton b = true) :
    remove_custom_button labelResend (remove_custom_button labelSend (btns ++ [b])) =
      remove_custom_button labelResend (remove_custom_button labelSend btns) := by
  have hcases : b.label = labelSend ∨ b.label = labelResend := by
    simpa [isSendButton] using hb
  unfold remove_custom_button
  rw [List.filter_append, List.filter_append]
  rcases hcases with h | h <;> simp [h, labelSend, labelResend]

/-- Helper: removing the two send labels twice equals removing them once. -/
lemma clean_clean (btns : List CustomButton) :
    remove_custom_button labelResend (remove_custom_button labelSend
        (remove_custom_button labelResend (remove_custom_button labelSend btns))) =
      remove_custom_button labelResend (remove_custom_button labelSend btns) := by
  unfold remove_custom_button
  simp only [List.filter_filter]
  apply List.filter_congr
  intro b _
  cases hS : b.label == labelSend <;> cases hR : b.label == labelResend <;>
    simp [bne, hS, hR]

/-- Helper: one invocation of the primary button setup is idempotent on the
button list when the environment and the rows do not change. -/
lemma setup_send_email_button_idem (enabledResult : String → Option EnabledCheck) (frm : Form)
    (records : List Communication) (btns : List CustomButton) :
    setup_send_email_button enabledResult frm records
        (setup_send_email_button enabledResult frm records btns) =
      setup_send_email_button enabledResult frm records btns := by
  by_cases h1 : (frm.docstatus != 1) = true
  · rw [setup_not_submitted_eq _ _ _ _ h1, setup_not_submitted_eq _ _ _ _ h1]
  · have h1f : (frm.docstatus != 1) = false := by simpa using h1
    by_cases hc : frm.doctype ∈ SUPPORTED_DOCTYPES
    · by_cases he : enabled_truthy (enabledResult frm.doctype) = true
      · rw [setup_enabled_eq _ _ _ _ h1f hc he, setup_enabled_eq _ _ _ _ h1f hc he]
        simp only [add_custom_button]
        rw [clean_append_send _ _ (isSendButton_setup_label _), clean_clean]
      · have hef : enabled_truthy (enabledResult frm.doctype) = false := by simpa using he
        rw [setup_disabled_eq _ _ _ _ h1f hc hef, setup_disabled_eq _ _ _ _ h1f hc hef,
          clean_clean]
    · rw [setup_unsupported_eq _ _ _ _ hc, setup_unsupported_eq _ _ _ _ hc]

/-- C9: the eligibility check is deterministic and side-effect-free: one
setup step leaves the Communication rows unchanged, and running the step a
second time with no intervening state change reproduces the same state,
hence the same button label. -/
theorem C9_eligibility_idempotent (enabledResult : String → Option EnabledCheck) (frm : Form)
    (s : ClientState) :
    (setup_step enabledResult frm s).records = s.records ∧
      setup_step enabledResult frm (setup_step enabledResult frm s) =
        setup_step enabledResult frm s := by
  refine ⟨rfl, ?_⟩
  unfold setup_step
  simp [setup_send_email_button_idem]

/-- Helper: sendButtonCount distributes over append. -/
lemma sendButtonCount_append (l1 l2 : List CustomButton) :
    sendButtonCount (l1 ++ l2) = sendButtonCount l1 + sendButtonCount l2 := by
  unfold sendButtonCount
  simp

/-- Helper: a single button counts at most once. -/
lemma sendButtonCount_singleton_le (b : CustomButton) : sendButtonCount [b] ≤ 1 := by
  cases hb : isSendButton b <;> simp [sendButtonCount, List.countP_cons, hb]

/-- Helper: one invocation of the primary button setup keeps the number of
send buttons at most one. -/
lemma sendButtonCount_le_one_step (enabledResult : String → Option EnabledCheck) (frm : Form)
    (records : List Communication) (btns : List CustomButton)
    (h : sendButtonCount btns ≤ 1) :
    sendButtonCount (setup_send_email_button enabledResult frm records btns) ≤ 1 := by
  by_cases h1 : (frm.docstatus != 1) = true
  · rw [setup_not_submitted_eq _ _ _ _ h1]
    exact h
  · have h1f : (frm.docstatus != 1) = false := by simpa using h1
    by_cases hc : frm.doctype ∈ SUPPORTED_DOCTYPES
    · by_cases he : enabled_truthy (enabledResult frm.doctype) = true
      · rw [setup_enabled_eq _ _ _ _ h1f hc he, add_custom_button, sendButtonCount_append,
          sendButtonCount_cleaned]
        simpa using sendButtonCount_singleton_le _
      · have hef : enabled_truthy (enabledResult frm.doctype) = false := by simpa using he
        rw [setup_disabled_eq _ _ _ _ h1f hc hef, sendButtonCount_cleaned]
        exact Nat.zero_le 1
    · rw [setup_unsupported_eq _ _ _ _ hc]
      exact h

/-- C10: after any number of invocations of the button setup on the same
form, starting with no custom buttons, at most one send button exists (a
button labeled Send Email or Resend Email); each invocation removes the
existing send buttons before adding at most one. -/
theorem C10_at_most_one_send_button
    (invocations : List ((String → Option EnabledCheck) × Form × List Communication)) :
    sendButtonCount (invocations.foldl
      (fun btns inv => setup_send_email_button inv.1 inv.2.1 inv.2.2 btns) []) ≤ 1 := by
  have key : ∀ (l : List ((String → Option EnabledCheck) × Form × List Communication))
      (btns : List CustomButton), sendButtonCount btns ≤ 1 →
      sendButtonCount (l.foldl
        (fun btns inv => setup_send_email_button inv.1 inv.2.1 inv.2.2 btns) btns) ≤ 1 := by
    intro l
    induction l with
    | nil =>
      intro btns h
      exact h
    | cons a t ih =>
      intro btns h
      exact ih _ (sendButtonCount_le_one_step a.1 a.2.1 a.2.2 btns h)
  exact key invocations [] (by simp [sendButtonCount])

end Emails
